import Mathlib

/-!
Shallow embedding of the Saarthi real-estate backend (Node/Express + Mongoose)
for checking its natural-language specification.

Conventions of the embedding:
* Mongo documents become Lean structures; a collection is a `List` of documents.
* Query-string parameters become `Option` fields: `none` models an absent (or
  JavaScript-falsy) parameter, `some v` a supplied one whose numeric parse
  succeeded, mirroring the `if (param)` guards of the controllers followed
  by `parseInt`/`parseFloat`.
* The `$regex ... $options : i` clauses the code builds from plain user
  strings are modelled as case-insensitive substring tests.
* Mongo evaluation of the constructed filter object is modelled by
  `matchesQuery`; `find(query).sort(...).skip(s).limit(n)` becomes
  filter, then a deterministic comparison sort, then `drop`/`take`.
  Mongo rejects a negative skip, which the controller surfaces as a 500
  response; the pipeline therefore returns `Except Unit`.
-/

namespace Saarthi

/-- A property document, with the fields of `models/Property.js` that the
controllers read (the schema is non-strict; `isFeatured` is such an extra
field queried by `getFeaturedProperties`).  Mixed string-or-number specs
(`bedrooms`) are modelled numerically, string fields as `String`.  `owner`
and `id` are document references, modelled as numeric identifiers. -/
structure Property where
  id : Nat
  title : String
  description : String
  location : String
  city : String
  propertyType : String
  price : Nat
  bedrooms : Nat
  furnishing : String
  possession : String
  area : Nat
  amenities : List String
  status : String
  createdAt : Nat
  isFeatured : Bool
  owner : Nat
  deriving DecidableEq

/-- The recognised query-string parameters of `GET /api/properties`
(`getProperties`, `propertyController.js` lines 5-21).  `amenities` may
arrive as a single value or as an array, hence the sum type.  `page`
defaults to 1 and `limit` to 12 in the code; callers of the model pass the
resolved values (`page` is an `Int`: the code applies no clamping). -/
structure ListParams where
  search : Option String := none
  location : Option String := none
  propertyType : Option String := none
  minPrice : Option Nat := none
  maxPrice : Option Nat := none
  bedrooms : Option Nat := none
  furnishing : Option String := none
  possession : Option String := none
  minArea : Option Nat := none
  maxArea : Option Nat := none
  amenities : Option (String ⊕ List String) := none
  page : Int := 1
  limit : Nat := 12
  deriving DecidableEq

/-- Coercion of the `amenities` parameter at `propertyController.js` line 76:
a singular value becomes a one-element array. -/
def amenList : String ⊕ List String → List String
  | Sum.inl s => [s]
  | Sum.inr l => l

/-- The Mongo filter object built by `getProperties` (lines 24-78).  Each
field is `none` when the code leaves the corresponding key off the query
object.  `orSearch` stands for the three-clause `$or` of case-insensitive
regex matches on title, description and location built from `search`. -/
structure MongoQuery where
  status : Option String
  orSearch : Option String
  city : Option String
  propertyType : Option String
  priceGte : Option Nat
  priceLte : Option Nat
  bedroomsGte : Option Nat
  furnishing : Option String
  possession : Option String
  areaGte : Option Nat
  areaLte : Option Nat
  amenitiesIn : Option (List String)
  deriving DecidableEq

/-- Query construction of `getProperties`, lines 24-78: always
`status : active`; `search` becomes the `$or` clause; `location` a regex on
`city`; price bounds are the supplied numbers times 10,000,000; `bedrooms`
a `$gte`; area bounds `$gte`/`$lte`; a singular `amenities` value is coerced
to a one-element array before `$in`. -/
def buildQuery (ps : ListParams) : MongoQuery where
  status := some "active"
  orSearch := ps.search
  city := ps.location
  propertyType := ps.propertyType
  priceGte := ps.minPrice.map (· * 10000000)
  priceLte := ps.maxPrice.map (· * 10000000)
  bedroomsGte := ps.bedrooms
  furnishing := ps.furnishing
  possession := ps.possession
  areaGte := ps.minArea
  areaLte := ps.maxArea
  amenitiesIn := ps.amenities.map amenList

/-- Whether the pattern occurs at the front of the text. -/
def matchFront [BEq α] : List α → List α → Bool
  | [], _ => true
  | _ :: _, [] => false
  | c :: cs, d :: ds => c == d && matchFront cs ds

/-- Whether the pattern occurs anywhere in the text. -/
def containsSub [BEq α] (pat : List α) : List α → Bool
  | [] => matchFront pat []
  | d :: ds => matchFront pat (d :: ds) || containsSub pat ds

/-- ASCII lowering of a character code, the case folding the regex flag `i`
performs on the plain patterns in play. -/
def lowerCode (n : Nat) : Nat :=
  if 65 ≤ n ∧ n ≤ 90 then n + 32 else n

/-- Model of a `$regex pat, $options : i` clause on a string field for the
plain (metacharacter-free) patterns the spec describes: case-insensitive
substring containment, via case-folded character codes. -/
def ciContains (hay pat : String) : Bool :=
  containsSub (pat.data.map (fun c => lowerCode c.toNat))
    (hay.data.map (fun c => lowerCode c.toNat))

/-- An absent constraint is satisfied; a present one is checked. -/
def optCheck (o : Option β) (f : β → Bool) : Bool :=
  match o with
  | none => true
  | some v => f v

/-- Mongo evaluation of the filter object built by `getProperties`: all
present keys must match (implicit AND); the `$or` clause needs one of the
three regex alternatives; `$in` on the array field `amenities` asks for a
common element. -/
def matchesQuery (q : MongoQuery) (p : Property) : Bool :=
  optCheck q.status (fun s => p.status == s) &&
  optCheck q.orSearch (fun s =>
    ciContains p.title s || ciContains p.description s || ciContains p.location s) &&
  optCheck q.city (fun s => ciContains p.city s) &&
  optCheck q.propertyType (fun s => p.propertyType == s) &&
  optCheck q.priceGte (fun v => decide (v ≤ p.price)) &&
  optCheck q.priceLte (fun v => decide (p.price ≤ v)) &&
  optCheck q.bedroomsGte (fun v => decide (v ≤ p.bedrooms)) &&
  optCheck q.furnishing (fun s => p.furnishing == s) &&
  optCheck q.possession (fun s => p.possession == s) &&
  optCheck q.areaGte (fun v => decide (v ≤ p.area)) &&
  optCheck q.areaLte (fun v => decide (p.area ≤ v)) &&
  optCheck q.amenitiesIn (fun l => l.any (fun a => p.amenities.contains a))

/-- Insertion into a list ordered by the boolean comparison `le`. -/
def insertLe (le : α → α → Bool) (a : α) : List α → List α
  | [] => [a]
  | b :: bs => if le a b then a :: b :: bs else b :: insertLe le a bs

/-- Deterministic comparison sort modelling the Mongo `.sort(sortObj)`; the
comparison `le` stands for the field/direction pair built at
`propertyController.js` lines 81-83. -/
def sortByLe (le : α → α → Bool) : List α → List α
  | [] => []
  | a :: as => insertLe le a (sortByLe le as)

/-- Skip computation of `getProperties` line 88: `(currentPage - 1) * perPage`,
with no clamping of the page number. -/
def skipOf (page : Int) (lim : Nat) : Int :=
  (page - 1) * lim

/-- Pagination helper the spec describes (`getPagination` in the utility
module): the page number clamped to at least 1 before the offset formula.
Stated only to compare against `skipOf`, which `getProperties` actually
uses. -/
def skipSpecClamped (page : Int) (lim : Nat) : Int :=
  (max page 1 - 1) * lim

/-- The full filtered and sorted result set of a listing query, before
pagination. -/
def fullResults (le : Property → Property → Bool) (ps : ListParams)
    (db : List Property) : List Property :=
  sortByLe le (db.filter (matchesQuery (buildQuery ps)))

/-- The `find(query).sort(...).skip(skip).limit(perPage)` pipeline of
`getProperties` lines 91-95.  A negative skip is rejected by Mongo and the
catch branch of the controller turns it into a 500 response, modelled by
`Except.error`. -/
def getProperties (le : Property → Property → Bool) (ps : ListParams)
    (db : List Property) : Except Unit (List Property) :=
  let skip := skipOf ps.page ps.limit
  if skip < 0 then Except.error ()
  else Except.ok (((fullResults le ps db).drop skip.toNat).take ps.limit)

/-- The `GET /api/properties/featured` handler (`getFeaturedProperties`,
lines 324-347): active and featured documents, newest first, at most 8. -/
def getFeaturedProperties (db : List Property) : List Property :=
  (sortByLe (fun a b => decide (b.createdAt ≤ a.createdAt))
    (db.filter (fun p => p.status == "active" && p.isFeatured))).take 8

theorem mem_insertLe (le : α → α → Bool) (a x : α) (l : List α) :
    x ∈ insertLe le a l ↔ x = a ∨ x ∈ l := by
  induction l with
  | nil => simp [insertLe]
  | cons b bs ih =>
    by_cases h : le a b = true
    · simp [insertLe, h]
    · simp only [insertLe, if_neg h, List.mem_cons, ih]
      tauto

theorem perm_insertLe (le : α → α → Bool) (a : α) (l : List α) :
    (insertLe le a l).Perm (a :: l) := by
  induction l with
  | nil => simp [insertLe]
  | cons b bs ih =>
    by_cases h : le a b = true
    · simp [insertLe, h]
    · simp only [insertLe, if_neg h]
      exact ((ih.cons b).trans (List.Perm.swap a b bs))

theorem perm_sortByLe (le : α → α → Bool) (l : List α) :
    (sortByLe le l).Perm l := by
  induction l with
  | nil => simp [sortByLe]
  | cons a as ih =>
    exact (perm_insertLe le a (sortByLe le as)).trans (ih.cons a)

theorem mem_sortByLe (le : α → α → Bool) (l : List α) (x : α) :
    x ∈ sortByLe le l ↔ x ∈ l :=
  (perm_sortByLe le l).mem_iff

theorem pairwise_insertLe (le : α → α → Bool)
    (htot : ∀ x y : α, le x y = true ∨ le y x = true)
    (htrans : ∀ x y z : α, le x y = true → le y z = true → le x z = true)
    (a : α) (l : List α) (h : l.Pairwise (fun x y => le x y = true)) :
    (insertLe le a l).Pairwise (fun x y => le x y = true) := by
  induction l with
  | nil => simp [insertLe]
  | cons b bs ih =>
    rcases List.pairwise_cons.mp h with ⟨hb, hbs⟩
    by_cases hab : le a b = true
    · simp only [insertLe, if_pos hab]
      refine List.pairwise_cons.mpr ⟨?_, h⟩
      intro y hy
      rcases List.mem_cons.mp hy with rfl | hy
      · exact hab
      · exact htrans a b y hab (hb y hy)
    · simp only [insertLe, if_neg hab]
      refine List.pairwise_cons.mpr ⟨?_, ih hbs⟩
      intro y hy
      rcases (mem_insertLe le a y bs).mp hy with rfl | hy
      · rcases htot y b with h' | h'
        · exact absurd h' hab
        · exact h'
      · exact hb y hy

theorem pairwise_sortByLe (le : α → α → Bool)
    (htot : ∀ x y : α, le x y = true ∨ le y x = true)
    (htrans : ∀ x y z : α, le x y = true → le y z = true → le x z = true)
    (l : List α) :
    (sortByLe le l).Pairwise (fun x y => le x y = true) := by
  induction l with
  | nil => simp [sortByLe]
  | cons a as ih => exact pairwise_insertLe le htot htrans a (sortByLe le as) ih

theorem optCheck_of_some (o : Option β) (f : β → Bool) (h : optCheck o f = true)
    (v : β) (hv : o = some v) : f v = true := by
  rw [hv] at h
  exact h

theorem mem_ok_matches (le : Property → Property → Bool) (ps : ListParams)
    (db res : List Property) (hres : getProperties le ps db = Except.ok res)
    (p : Property) (hp : p ∈ res) :
    matchesQuery (buildQuery ps) p = true := by
  unfold getProperties at hres
  by_cases hsk : skipOf ps.page ps.limit < 0
  · simp [hsk] at hres
  · simp only [hsk, if_neg, if_false, Except.ok.injEq] at hres
    subst hres
    have h1 : p ∈ fullResults le ps db :=
      List.mem_of_mem_drop (List.mem_of_mem_take hp)
    have h2 : p ∈ db.filter (matchesQuery (buildQuery ps)) :=
      (mem_sortByLe _ _ p).mp h1
    exact (List.mem_filter.mp h2).2

/-- The sort direction of `getProperties` for the default `createdAt desc`. -/
def createdDesc (a b : Property) : Bool :=
  decide (b.createdAt ≤ a.createdAt)

/-- A demonstration property satisfying all example filters. -/
def egP : Property where
  id := 1
  title := "Sea View Flat"
  description := "a bright two bhk"
  location := "Bandra West"
  city := "Mumbai"
  propertyType := "apartment"
  price := 15000000
  bedrooms := 3
  furnishing := "semi"
  possession := "ready"
  area := 900
  amenities := ["lift", "gym"]
  status := "active"
  createdAt := 10
  isFeatured := true
  owner := 7

/-- A demonstration request supplying every filter of the listing endpoint. -/
def egParams : ListParams where
  search := some "sea"
  location := some "mum"
  propertyType := some "apartment"
  minPrice := some 1
  maxPrice := some 2
  bedrooms := some 2
  furnishing := some "semi"
  possession := some "ready"
  minArea := some 500
  maxArea := some 1000
  amenities := some (Sum.inl "gym")
  page := 1
  limit := 12

/-- C1: every property in a returned listing page satisfies all supplied
filter predicates combined by AND (exact match for propertyType, furnishing
and possession, bedrooms at least the requested value, amenity lists
intersecting, a singular amenities value read as a one-element set), the
search parameter matching when title OR description OR location matches
case-insensitively, and every returned property has status active. -/
theorem getProperties_filters_sound
    (le : Property → Property → Bool) (ps : ListParams) (db res : List Property)
    (hres : getProperties le ps db = Except.ok res)
    (p : Property) (hp : p ∈ res) :
    p.status = "active" ∧
    (∀ s, ps.search = some s →
      ciContains p.title s = true ∨ ciContains p.description s = true ∨
      ciContains p.location s = true) ∧
    (∀ s, ps.location = some s → ciContains p.city s = true) ∧
    (∀ t, ps.propertyType = some t → p.propertyType = t) ∧
    (∀ m, ps.minPrice = some m → m * 10000000 ≤ p.price) ∧
    (∀ m, ps.maxPrice = some m → p.price ≤ m * 10000000) ∧
    (∀ b, ps.bedrooms = some b → b ≤ p.bedrooms) ∧
    (∀ f, ps.furnishing = some f → p.furnishing = f) ∧
    (∀ w, ps.possession = some w → p.possession = w) ∧
    (∀ m, ps.minArea = some m → m ≤ p.area) ∧
    (∀ m, ps.maxArea = some m → p.area ≤ m) ∧
    (∀ a, ps.amenities = some a →
      ∃ x, x ∈ amenList a ∧ x ∈ p.amenities) := by
  have hm := mem_ok_matches le ps db res hres p hp
  simp only [matchesQuery, Bool.and_eq_true] at hm
  obtain ⟨⟨⟨⟨⟨⟨⟨⟨⟨⟨⟨hst, hor⟩, hcity⟩, hpt⟩, hpg⟩, hpl⟩, hbed⟩, hfurn⟩, hposs⟩,
    hag⟩, hal⟩, ham⟩ := hm
  refine ⟨?_, ?_, ?_, ?_, ?_, ?_, ?_, ?_, ?_, ?_, ?_, ?_⟩
  · have := optCheck_of_some _ _ hst "active" rfl
    exact beq_iff_eq.mp this
  · intro s hs
    have := optCheck_of_some _ _ hor s hs
    simpa [Bool.or_eq_true, or_assoc] using this
  · intro s hs
    exact optCheck_of_some _ _ hcity s hs
  · intro t ht
    exact beq_iff_eq.mp (optCheck_of_some _ _ hpt t ht)
  · intro m hm'
    have := optCheck_of_some _ _ hpg (m * 10000000) (by simp [buildQuery, hm'])
    exact of_decide_eq_true this
  · intro m hm'
    have := optCheck_of_some _ _ hpl (m * 10000000) (by simp [buildQuery, hm'])
    exact of_decide_eq_true this
  · intro b hb
    exact of_decide_eq_true (optCheck_of_some _ _ hbed b hb)
  · intro f hf
    exact beq_iff_eq.mp (optCheck_of_some _ _ hfurn f hf)
  · intro w hw
    exact beq_iff_eq.mp (optCheck_of_some _ _ hposs w hw)
  · intro m hm'
    exact of_decide_eq_true (optCheck_of_some _ _ hag m hm')
  · intro m hm'
    exact of_decide_eq_true (optCheck_of_some _ _ hal m hm')
  · intro a ha
    have hIn : (buildQuery ps).amenitiesIn = some (amenList a) := by
      simp [buildQuery, ha]
    have := optCheck_of_some _ _ ham _ hIn
    rcases List.any_eq_true.mp this with ⟨x, hx, hmem⟩
    exact ⟨x, hx, List.mem_of_elem_eq_true hmem⟩

theorem getProperties_filters_sound_witness :
    egP.status = "active" ∧
    (∀ s, egParams.search = some s →
      ciContains egP.title s = true ∨ ciContains egP.description s = true ∨
      ciContains egP.location s = true) ∧
    (∀ s, egParams.location = some s → ciContains egP.city s = true) ∧
    (∀ t, egParams.propertyType = some t → egP.propertyType = t) ∧
    (∀ m, egParams.minPrice = some m → m * 10000000 ≤ egP.price) ∧
    (∀ m, egParams.maxPrice = some m → egP.price ≤ m * 10000000) ∧
    (∀ b, egParams.bedrooms = some b → b ≤ egP.bedrooms) ∧
    (∀ f, egParams.furnishing = some f → egP.furnishing = f) ∧
    (∀ w, egParams.possession = some w → egP.possession = w) ∧
    (∀ m, egParams.minArea = some m → m ≤ egP.area) ∧
    (∀ m, egParams.maxArea = some m → egP.area ≤ m) ∧
    (∀ a, egParams.amenities = some a →
      ∃ x, x ∈ amenList a ∧ x ∈ egP.amenities) :=
  getProperties_filters_sound createdDesc egParams [egP] [egP] (by rfl) egP
    (List.mem_singleton.mpr rfl)

/-- The request of the spec example `GET /api/properties?minPrice=1&maxPrice=2`. -/
def egPriceParams : ListParams where
  minPrice := some 1
  maxPrice := some 2

/-- C2: a supplied minPrice or maxPrice is multiplied by 10,000,000 and
applied as an inclusive bound on price; with minPrice 1 and maxPrice 2 the
constructed query matches exactly the active properties priced in the range
10,000,000 to 20,000,000. -/
theorem price_bounds_crore
    (ps : ListParams) (m mx : Nat)
    (hmin : ps.minPrice = some m) (hmax : ps.maxPrice = some mx) :
    (buildQuery ps).priceGte = some (m * 10000000) ∧
    (buildQuery ps).priceLte = some (mx * 10000000) ∧
    (∀ (db : List Property) (p : Property),
      p ∈ db.filter (matchesQuery (buildQuery egPriceParams)) ↔
        p ∈ db ∧ p.status = "active" ∧
          10000000 ≤ p.price ∧ p.price ≤ 20000000) := by
  refine ⟨by simp [buildQuery, hmin], by simp [buildQuery, hmax], ?_⟩
  intro db p
  rw [List.mem_filter]
  simp [matchesQuery, buildQuery, egPriceParams, optCheck, and_assoc]

theorem price_bounds_crore_witness :
    (buildQuery egPriceParams).priceGte = some (1 * 10000000) ∧
    (buildQuery egPriceParams).priceLte = some (2 * 10000000) ∧
    (∀ (db : List Property) (p : Property),
      p ∈ db.filter (matchesQuery (buildQuery egPriceParams)) ↔
        p ∈ db ∧ p.status = "active" ∧
          10000000 ≤ p.price ∧ p.price ≤ 20000000) :=
  price_bounds_crore egPriceParams 1 2 rfl rfl

/-- The page of 1-indexed number `page` with page size `lim` of a result
list, as produced by `skip ((page-1)*lim)` followed by `limit lim`. -/
def pageSlice (full : List α) (page lim : Nat) : List α :=
  (full.drop ((page - 1) * lim)).take lim

theorem flatten_pageSlice (full : List α) (lim : Nat) :
    ∀ n, ((List.range n).map (fun i => pageSlice full (i + 1) lim)).flatten =
      full.take (n * lim) := by
  intro n
  induction n with
  | zero => simp
  | succ k ih =>
    rw [List.range_succ, List.map_append, List.flatten_append]
    simp only [List.map_cons, List.map_nil, List.flatten_cons, List.flatten_nil,
      List.append_nil]
    rw [ih, pageSlice, Nat.add_sub_cancel, Nat.succ_mul, List.take_add]

/-- C3 counterexample: the controller does not clamp the page number.  For
page 0 and the default limit 12 the computed skip is -12, whereas the
claimed clamped-to-1 interpretation gives 0; Mongo rejects the negative
skip and the request fails (modelled as the 500-producing error) instead of
serving the first page. -/
theorem pagination_clamp_cex :
    skipOf 0 12 = -12 ∧ skipSpecClamped 0 12 = 0 ∧
    skipOf 0 12 ≠ skipSpecClamped 0 12 ∧
    getProperties createdDesc { page := 0 } [egP] = Except.error () := by
  refine ⟨rfl, rfl, by decide, rfl⟩

theorem toNat_skipOf (page : Int) (lim : Nat) (h : 1 ≤ page) :
    (skipOf page lim).toNat = (page.toNat - 1) * lim := by
  have h1 : page - 1 = ((page.toNat - 1 : Nat) : Int) := by omega
  rw [skipOf, h1, ← Int.natCast_mul, Int.toNat_natCast]

/-- C3 (amended): the page parameter is 1-indexed and used without
clamping (the skip is `(page-1)*limit`, negative when page < 1); for every
page at least 1 the endpoint returns the slice of the full filtered,
sorted result set starting at offset `(page-1)*limit`, at most `limit`
items, and concatenating pages 1,2,...,n in order reproduces the full
filtered, sorted result set exactly once as soon as `n*limit` covers its
length. -/
theorem getProperties_pagination
    (le : Property → Property → Bool) (ps : ListParams) (db : List Property)
    (hpage : 1 ≤ ps.page) (n : Nat)
    (hn : (fullResults le ps db).length ≤ n * ps.limit) :
    getProperties le ps db =
      Except.ok (pageSlice (fullResults le ps db) ps.page.toNat ps.limit) ∧
    (pageSlice (fullResults le ps db) ps.page.toNat ps.limit).length ≤
      ps.limit ∧
    ((List.range n).map (fun i =>
      pageSlice (fullResults le ps db) (i + 1) ps.limit)).flatten =
      fullResults le ps db := by
  refine ⟨?_, List.length_take_le .., ?_⟩
  · have hnn : ¬ skipOf ps.page ps.limit < 0 := by
      rw [skipOf]
      have h1 : 0 ≤ ps.page - 1 := by omega
      have h2 : (0 : Int) ≤ (ps.limit : Int) := Int.natCast_nonneg _
      exact not_lt.mpr (mul_nonneg h1 h2)
    rw [getProperties]
    simp only [hnn, if_false]
    rw [toNat_skipOf ps.page ps.limit hpage]
    rfl
  · rw [flatten_pageSlice]
    exact List.take_of_length_le hn

/-- Demonstration database of three active properties for pagination. -/
def egDb : List Property :=
  [egP, { egP with id := 2, createdAt := 20 }, { egP with id := 3, createdAt := 30 }]

/-- Listing request with page 1 and limit 2 and no filters. -/
def egPgParams : ListParams := { page := 1, limit := 2 }

theorem getProperties_pagination_witness :
    getProperties createdDesc egPgParams egDb =
      Except.ok (pageSlice (fullResults createdDesc egPgParams egDb)
        egPgParams.page.toNat egPgParams.limit) ∧
    (pageSlice (fullResults createdDesc egPgParams egDb)
      egPgParams.page.toNat egPgParams.limit).length ≤ egPgParams.limit ∧
    ((List.range 2).map (fun i =>
      pageSlice (fullResults createdDesc egPgParams egDb) (i + 1)
        egPgParams.limit)).flatten =
      fullResults createdDesc egPgParams egDb :=
  getProperties_pagination createdDesc egPgParams egDb (by decide) 2 (by decide)

/-- C10: the featured endpoint returns at most 8 properties, each active
and featured, ordered by creation time descending. -/
theorem getFeaturedProperties_spec (db : List Property) :
    (getFeaturedProperties db).length ≤ 8 ∧
    (∀ p ∈ getFeaturedProperties db, p.status = "active" ∧ p.isFeatured = true) ∧
    (getFeaturedProperties db).Pairwise
      (fun a b => b.createdAt ≤ a.createdAt) := by
  refine ⟨List.length_take_le .., ?_, ?_⟩
  · intro p hp
    have h1 := List.mem_of_mem_take hp
    have h2 := (mem_sortByLe _ _ p).mp h1
    have h3 := (List.mem_filter.mp h2).2
    simp only [Bool.and_eq_true, beq_iff_eq] at h3
    exact h3
  · have htot : ∀ x y : Property,
        decide (y.createdAt ≤ x.createdAt) = true ∨
        decide (x.createdAt ≤ y.createdAt) = true := by
      intro x y
      rcases Nat.le_total y.createdAt x.createdAt with h | h
      · exact Or.inl (decide_eq_true h)
      · exact Or.inr (decide_eq_true h)
    have htrans : ∀ x y z : Property,
        decide (y.createdAt ≤ x.createdAt) = true →
        decide (z.createdAt ≤ y.createdAt) = true →
        decide (z.createdAt ≤ x.createdAt) = true := by
      intro x y z h1 h2
      exact decide_eq_true
        (Nat.le_trans (of_decide_eq_true h2) (of_decide_eq_true h1))
    have hs := pairwise_sortByLe
      (fun a b : Property => decide (b.createdAt ≤ a.createdAt)) htot htrans
      (db.filter (fun p => p.status == "active" && p.isFeatured))
    have hst := hs.sublist (List.take_sublist 8 _)
    exact hst.imp (fun h => of_decide_eq_true h)

theorem getFeaturedProperties_spec_witness :
    (getFeaturedProperties egDb).length ≤ 8 ∧
    (∀ p ∈ getFeaturedProperties egDb,
      p.status = "active" ∧ p.isFeatured = true) ∧
    (getFeaturedProperties egDb).Pairwise
      (fun a b => b.createdAt ≤ a.createdAt) :=
  getFeaturedProperties_spec egDb

/-- The request body of `POST /api/contact`; every field may be missing. -/
structure ContactBody where
  name : Option String := none
  email : Option String := none
  phone : Option String := none
  subject : Option String := none
  message : Option String := none
  deriving DecidableEq

/-- A stored contact document (`models/Contact.js`): name, email and
message required, extra fields free (non-strict schema). -/
structure Contact where
  name : String
  email : String
  message : String
  deriving DecidableEq

/-- Mongoose validation run by `Contact.create`: the three required string
paths must be present and non-empty, otherwise creation throws a
validation error. -/
def contactValidate (b : ContactBody) : Except String Contact :=
  match b.name, b.email, b.message with
  | some n, some e, some m =>
    if n.data.isEmpty || e.data.isEmpty || m.data.isEmpty then
      Except.error "Contact validation failed"
    else Except.ok { name := n, email := e, message := m }
  | _, _, _ => Except.error "Contact validation failed"

/-- The `POST /api/contact` handler (server file, routes section): it calls
`Contact.create(req.body)` inside a try/catch whose catch branch sends
status 500; a successful create answers the default status 200.  Returns
(status, success-flag, contact store after the request). -/
def postContact (store : List Contact) (b : ContactBody) :
    Nat × Bool × List Contact :=
  match contactValidate b with
  | Except.ok c => (200, true, store ++ [c])
  | Except.error _ => (500, false, store)

/-- C4 counterexample: omitting the required message field makes
`Contact.create` throw, and the catch-all branch answers 500, not the
claimed 400. -/
theorem postContact_missing_message_cex :
    (postContact [] { name := some "A", email := some "a@x.com" }).1 = 500 ∧
    (postContact [] { name := some "A", email := some "a@x.com" }).1 ≠ 400 := by
  exact ⟨rfl, by decide⟩

/-- C4 (amended): posting a contact message with name, email and message
present succeeds with status 200 and stores the message; omitting the
required message field is answered with status 500 (the handler has no
validation branch: every error takes the catch-all 500 path). -/
theorem postContact_statuses (store : List Contact) (n e m : String)
    (hn : n.data.isEmpty = false) (he : e.data.isEmpty = false)
    (hm : m.data.isEmpty = false) :
    (postContact store { name := some n, email := some e, message := some m }) =
      (200, true, store ++ [{ name := n, email := e, message := m }]) ∧
    (postContact store { name := some n, email := some e }).1 = 500 := by
  constructor
  · simp [postContact, contactValidate, hn, he, hm]
  · rfl

theorem postContact_statuses_witness :
    (postContact [] { name := some "A", email := some "a@x.com",
                      message := some "hi" }) =
      (200, true, [{ name := "A", email := "a@x.com", message := "hi" }]) ∧
    (postContact [] { name := some "A", email := some "a@x.com" }).1 = 500 :=
  postContact_statuses [] "A" "a@x.com" "hi" rfl rfl rfl

/-- A user document (`models/User.js`): identifiers, credentials and role.
Timestamps are modelled as naturals. -/
structure User where
  id : Nat
  name : String
  email : String
  password : Option String
  googleId : Option String
  avatar : Option String
  provider : String
  role : String
  lastLogin : Nat
  deriving DecidableEq

/-- Removal of the first element satisfying a test, modelling the
single-document `findByIdAndDelete` / `findOneAndDelete` operations. -/
def removeFirst (q : α → Bool) : List α → List α
  | [] => []
  | a :: as => if q a then as else a :: removeFirst q as

/-- The `updateProperty` handler (`propertyController.js` lines 220-277):
404 when the id matches nothing; 403 when the requester is neither the
owner nor an admin; otherwise the document is updated (`body` stands for
applying `req.body` with `findByIdAndUpdate`).  Returns (status, db). -/
def updateProperty (db : List Property) (u : User) (pid : Nat)
    (body : Property → Property) : Nat × List Property :=
  match db.find? (fun p => p.id == pid) with
  | none => (404, db)
  | some p =>
    if p.owner != u.id && u.role != "admin" then (403, db)
    else (200, db.map (fun q => if q.id == pid then body q else q))

/-- The `deleteProperty` handler (lines 280-321): same guards, then
`findByIdAndDelete`. -/
def deleteProperty (db : List Property) (u : User) (pid : Nat) :
    Nat × List Property :=
  match db.find? (fun p => p.id == pid) with
  | none => (404, db)
  | some p =>
    if p.owner != u.id && u.role != "admin" then (403, db)
    else (200, removeFirst (fun q => q.id == pid) db)

/-- C5: update and delete succeed only for the owner or an admin; any
other authenticated requester receives 403 and the database is unchanged. -/
theorem ownership_guard
    (db : List Property) (u : User) (pid : Nat) (body : Property → Property)
    (p : Property) (hfind : db.find? (fun q => q.id == pid) = some p) :
    ((¬ (p.owner = u.id ∨ u.role = "admin")) →
      updateProperty db u pid body = (403, db) ∧
      deleteProperty db u pid = (403, db)) ∧
    ((updateProperty db u pid body).1 = 200 →
      p.owner = u.id ∨ u.role = "admin") ∧
    ((deleteProperty db u pid).1 = 200 →
      p.owner = u.id ∨ u.role = "admin") := by
  by_cases hb : (p.owner != u.id && u.role != "admin") = true
  · have h403u : updateProperty db u pid body = (403, db) := by
      rw [updateProperty, hfind]
      simp [hb]
    have h403d : deleteProperty db u pid = (403, db) := by
      rw [deleteProperty, hfind]
      simp [hb]
    refine ⟨fun _ => ⟨h403u, h403d⟩, ?_, ?_⟩
    · rw [h403u]
      intro h
      simp at h
    · rw [h403d]
      intro h
      simp at h
  · have hok : p.owner = u.id ∨ u.role = "admin" := by
      rcases Bool.and_eq_false_iff.mp (Bool.eq_false_iff.mpr hb) with h | h
      · left
        have := Bool.eq_false_iff.mp h
        simpa [bne_iff_ne] using this
      · right
        have := Bool.eq_false_iff.mp h
        simpa [bne_iff_ne] using this
    exact ⟨fun hno => absurd hok hno, fun _ => hok, fun _ => hok⟩

/-- An authenticated user who neither owns `egP` nor is an admin. -/
def egOther : User where
  id := 8
  name := "Other"
  email := "other@x.com"
  password := none
  googleId := none
  avatar := none
  provider := "manual"
  role := "user"
  lastLogin := 0

theorem ownership_guard_witness :
    ((¬ (egP.owner = egOther.id ∨ egOther.role = "admin")) →
      updateProperty [egP] egOther 1 id = (403, [egP]) ∧
      deleteProperty [egP] egOther 1 = (403, [egP])) ∧
    ((updateProperty [egP] egOther 1 id).1 = 200 →
      egP.owner = egOther.id ∨ egOther.role = "admin") ∧
    ((deleteProperty [egP] egOther 1).1 = 200 →
      egP.owner = egOther.id ∨ egOther.role = "admin") :=
  ownership_guard [egP] egOther 1 id egP rfl

/-- A favorite document (`models/Favorite.js`): a (user, property) pair
with an optional note. -/
structure Favorite where
  user : Nat
  property : Nat
  notes : Option String
  deriving DecidableEq

/-- The (user, property) filter `findOne` receives in the favorite
controllers. -/
def favPair (uid pid : Nat) (f : Favorite) : Bool :=
  f.user == uid && f.property == pid

/-- The `addFavorite` handler (`favoriteController.js` lines 32-88):
404 when the property does not exist, 400 when a favorite for the pair
already exists, otherwise a new favorite is created (status 201). -/
def addFavorite (props : List Property) (favs : List Favorite)
    (uid pid : Nat) (notes : Option String) : Nat × List Favorite :=
  match props.find? (fun p => p.id == pid) with
  | none => (404, favs)
  | some _ =>
    match favs.find? (favPair uid pid) with
    | some _ => (400, favs)
    | none => (201, favs ++ [{ user := uid, property := pid, notes := notes }])

/-- The `removeFavorite` handler (lines 91-119): `findOneAndDelete` on the
pair; 404 when nothing matches. -/
def removeFavorite (favs : List Favorite) (uid pid : Nat) :
    Nat × List Favorite :=
  match favs.find? (favPair uid pid) with
  | none => (404, favs)
  | some _ => (200, removeFirst (favPair uid pid) favs)

/-- The `clearAllFavorites` handler (lines 146-162): `deleteMany` on the
user, reporting the number deleted. -/
def clearAllFavorites (favs : List Favorite) (uid : Nat) :
    Nat × List Favorite :=
  (favs.countP (fun f => f.user == uid),
   favs.filter (fun f => !(f.user == uid)))

/-- The invariant of the unique compound index of `favoriteSchema`
(`models/Favorite.js` line 27): at most one favorite per (user, property)
pair. -/
def FavInv (favs : List Favorite) : Prop :=
  favs.Pairwise (fun f g => ¬ (f.user = g.user ∧ f.property = g.property))

theorem removeFirst_sublist (q : α → Bool) (l : List α) :
    List.Sublist (removeFirst q l) l := by
  induction l with
  | nil => simp [removeFirst]
  | cons a as ih =>
    rw [removeFirst]
    by_cases h : q a = true
    · simp only [h, if_true]
      exact List.sublist_cons_self a as
    · simp only [h, if_false]
      exact ih.cons₂ a

/-- C6: a second add of the same (user, property) favorite is rejected
with 400 and changes nothing, and each favorite operation preserves the
at-most-one-per-pair invariant. -/
theorem favorite_unique
    (props : List Property) (favs : List Favorite) (uid pid : Nat)
    (notes : Option String) :
    ((∃ p, props.find? (fun q => q.id == pid) = some p) →
      (∃ f0, favs.find? (favPair uid pid) = some f0) →
      addFavorite props favs uid pid notes = (400, favs)) ∧
    (FavInv favs →
      FavInv (addFavorite props favs uid pid notes).2 ∧
      FavInv (removeFavorite favs uid pid).2 ∧
      FavInv (clearAllFavorites favs uid).2) := by
  constructor
  · rintro ⟨p, hp⟩ ⟨f0, hf⟩
    rw [addFavorite, hp, hf]
  · intro hinv
    refine ⟨?_, ?_, ?_⟩
    · cases hp : props.find? (fun p => p.id == pid) with
      | none => simpa [addFavorite, hp] using hinv
      | some p =>
        cases hf : favs.find? (favPair uid pid) with
        | some f0 => simpa [addFavorite, hp, hf] using hinv
        | none =>
          simp only [addFavorite, hp, hf]
          rw [FavInv, List.pairwise_append]
          refine ⟨hinv, List.pairwise_singleton _ _, ?_⟩
          intro f hfmem g hg
          simp only [List.mem_singleton] at hg
          subst hg
          have hne := List.find?_eq_none.mp hf f hfmem
          simpa [favPair] using hne
    · cases hf : favs.find? (favPair uid pid) with
      | none => simpa [removeFavorite, hf] using hinv
      | some f0 =>
        simp only [removeFavorite, hf]
        exact hinv.sublist (removeFirst_sublist (favPair uid pid) favs)
    · exact hinv.sublist (List.filter_sublist ..)

/-- An existing favorite of the demonstration user for `egP`. -/
def egFav : Favorite where
  user := 8
  property := 1
  notes := none

theorem favorite_unique_witness :
    ((∃ p, [egP].find? (fun q => q.id == 1) = some p) →
      (∃ f0, [egFav].find? (favPair 8 1) = some f0) →
      addFavorite [egP] [egFav] 8 1 none = (400, [egFav])) ∧
    (FavInv [egFav] →
      FavInv (addFavorite [egP] [egFav] 8 1 none).2 ∧
      FavInv (removeFavorite [egFav] 8 1).2 ∧
      FavInv (clearAllFavorites [egFav] 8).2) :=
  favorite_unique [egP] [egFav] 8 1 none

/-- The response message of `clearAllFavorites`. -/
def clearMessage (n : Nat) : String :=
  "Cleared " ++ toString n ++ " favorites"

/-- The durable state of the application: the three collections the
favorite routes can reach. -/
structure AppState where
  users : List User
  properties : List Property
  favorites : List Favorite
  deriving DecidableEq

/-- The `clearAllFavorites` route at the application level: it runs
`Favorite.deleteMany` for the requesting user and reports the deleted
count; no other collection is touched. -/
def clearAllFavoritesApp (st : AppState) (uid : Nat) :
    (Nat × String) × AppState :=
  let r := clearAllFavorites st.favorites uid
  ((r.1, clearMessage r.1), { st with favorites := r.2 })

/-- C9: clearing favorites deletes exactly the favorite records of the
requesting user and reports their number; favorites of every other user
keep their multiplicity,
and the user and property collections are untouched. -/
theorem clearAllFavorites_frame (st : AppState) (uid : Nat) :
    (clearAllFavoritesApp st uid).2.users = st.users ∧
    (clearAllFavoritesApp st uid).2.properties = st.properties ∧
    (∀ f : Favorite, f.user = uid →
      f ∉ (clearAllFavoritesApp st uid).2.favorites) ∧
    (∀ f : Favorite, f.user ≠ uid →
      ((clearAllFavoritesApp st uid).2.favorites.countP (fun g => decide (g = f)) =
        st.favorites.countP (fun g => decide (g = f)))) ∧
    (clearAllFavoritesApp st uid).1.1 =
      st.favorites.countP (fun f => f.user == uid) ∧
    (clearAllFavoritesApp st uid).1.2 =
      clearMessage (st.favorites.countP (fun f => f.user == uid)) ∧
    (clearAllFavoritesApp st uid).2.favorites.length +
      st.favorites.countP (fun f => f.user == uid) = st.favorites.length := by
  refine ⟨rfl, rfl, ?_, ?_, rfl, rfl, ?_⟩
  · intro f hf hmem
    have := (List.mem_filter.mp hmem).2
    simp [hf] at this
  · intro f hf
    show (st.favorites.filter (fun g => !(g.user == uid))).countP _ = _
    rw [List.countP_filter]
    refine List.countP_congr ?_
    intro a _
    constructor
    · intro h
      simpa using (Bool.and_eq_true ..).mp h |>.1
    · intro h
      have ha : a = f := by simpa using h
      subst ha
      simp [hf, h]
  · show (st.favorites.filter (fun g => !(g.user == uid))).length + _ = _
    rw [List.countP_eq_length_filter] at *
    have hsplit := List.length_eq_countP_add_countP
      (fun f : Favorite => f.user == uid) st.favorites
    rw [List.countP_eq_length_filter, List.countP_eq_length_filter] at hsplit
    have hcong : (st.favorites.filter (fun a => decide ¬(a.user == uid) = true)).length =
        (st.favorites.filter (fun g => !(g.user == uid))).length := by
      rw [← List.countP_eq_length_filter, ← List.countP_eq_length_filter]
      refine List.countP_congr ?_
      intro a _
      simp
    omega

/-- A demonstration application state. -/
def egState : AppState where
  users := [egOther]
  properties := [egP]
  favorites := [egFav]

theorem clearAllFavorites_frame_witness :
    (clearAllFavoritesApp egState 8).2.users = [egOther] ∧
    (clearAllFavoritesApp egState 8).1.1 = 1 :=
  ⟨(clearAllFavorites_frame egState 8).1,
   by
    have h := (clearAllFavorites_frame egState 8).2.2.2.2.1
    rw [h]
    rfl⟩

/-- Model of `bcrypt.hash` at cost factor 12 (external library; the
functional contract the auth code relies on): hashing tags the password so
that exactly the hashed password verifies.  Collisions of the real hash
are outside the model. -/
def hashPassword (p : String) : String :=
  "bcrypt12$" ++ p

/-- Model of `bcrypt.compare`: the comparison succeeds exactly when the
stored hash is the hash of the presented password. -/
def comparePassword (plain hashed : String) : Bool :=
  hashed == hashPassword plain

theorem hashPassword_inj (p q : String) (h : hashPassword p = hashPassword q) :
    p = q := by
  have hd : (hashPassword p).data = (hashPassword q).data := congrArg String.data h
  rw [hashPassword, hashPassword, String.data_append, String.data_append] at hd
  exact congrArg String.mk (List.append_cancel_left hd)

/-- The `POST /api/auth/register` handler (server file): 400 when a field
is missing, 400 when the email is taken, otherwise the user is stored with
the hashed password, provider manual (status 201). -/
def registerUser (users : List User) (newId now : Nat)
    (name email password : Option String) : Nat × List User :=
  match name, email, password with
  | some n, some e, some pw =>
    (match users.find? (fun u => u.email == e) with
     | some _ => (400, users)
     | none =>
       (201, users ++ [{ id := newId, name := n, email := e,
                         password := some (hashPassword pw), googleId := none,
                         avatar := none, provider := "manual", role := "user",
                         lastLogin := now }]))
  | _, _, _ => (400, users)

/-- The `POST /api/auth/login` handler (server file): find the user by
email; a missing user or missing stored hash gives 401, a failing
comparison gives 401, a successful one logs the user in (200). -/
def loginUser (users : List User) (email password : String) :
    Nat × Option User :=
  match users.find? (fun u => u.email == email) with
  | none => (401, none)
  | some u =>
    match u.password with
    | none => (401, none)
    | some h => if comparePassword password h then (200, some u) else (401, none)

/-- C7: registering an already-registered email is rejected with 400 and
creates no user; after a fresh registration with password pw, logging in
with that email and pw succeeds, while logging in with any other password
gives 401. -/
theorem register_login_spec
    (users : List User) (newId now : Nat) (n e pw : String) :
    ((∃ u, users.find? (fun v => v.email == e) = some u) →
      registerUser users newId now (some n) (some e) (some pw) = (400, users)) ∧
    (users.find? (fun v => v.email == e) = none →
      (registerUser users newId now (some n) (some e) (some pw)).1 = 201 ∧
      (loginUser
        (registerUser users newId now (some n) (some e) (some pw)).2 e pw).1 =
        200 ∧
      (∀ q : String, q ≠ pw →
        (loginUser
          (registerUser users newId now (some n) (some e) (some pw)).2 e q).1 =
          401)) := by
  constructor
  · rintro ⟨u, hu⟩
    rw [registerUser, hu]
  · intro hnone
    have hreg : (registerUser users newId now (some n) (some e) (some pw)).2 =
        users ++ [{ id := newId, name := n, email := e,
                    password := some (hashPassword pw), googleId := none,
                    avatar := none, provider := "manual", role := "user",
                    lastLogin := now }] := by
      rw [registerUser, hnone]
    have hfind : (registerUser users newId now (some n) (some e) (some pw)).2.find?
        (fun u => u.email == e) =
        some { id := newId, name := n, email := e,
               password := some (hashPassword pw), googleId := none,
               avatar := none, provider := "manual", role := "user",
               lastLogin := now } := by
      rw [hreg, List.find?_append, hnone]
      simp [List.find?]
    refine ⟨by rw [registerUser, hnone], ?_, ?_⟩
    · rw [loginUser, hfind]
      simp [comparePassword]
    · intro q hq
      rw [loginUser, hfind]
      have hcmp : comparePassword q (hashPassword pw) = false := by
        rw [comparePassword]
        by_contra hcon
        have htrue : (hashPassword pw == hashPassword q) = true := by
          cases hb : (hashPassword pw == hashPassword q) with
          | false => exact absurd hb hcon
          | true => rfl
        exact hq ((hashPassword_inj pw q (beq_iff_eq.mp htrue)).symm)
      simp [hcmp]

theorem register_login_spec_witness :
    ((∃ u, ([] : List User).find? (fun v => v.email == "a@x.com") = some u) →
      registerUser [] 1 0 (some "A") (some "a@x.com") (some "pw1") = (400, [])) ∧
    (([] : List User).find? (fun v => v.email == "a@x.com") = none →
      (registerUser [] 1 0 (some "A") (some "a@x.com") (some "pw1")).1 = 201 ∧
      (loginUser (registerUser [] 1 0 (some "A") (some "a@x.com")
        (some "pw1")).2 "a@x.com" "pw1").1 = 200 ∧
      (∀ q : String, q ≠ "pw1" →
        (loginUser (registerUser [] 1 0 (some "A") (some "a@x.com")
          (some "pw1")).2 "a@x.com" q).1 = 401)) :=
  register_login_spec [] 1 0 "A" "a@x.com" "pw1"

/-- A federated identity profile as passport hands it to the verify
callback: subject id, display name, primary email and first photo. -/
structure GoogleProfile where
  id : String
  displayName : String
  email : String
  photo : Option String
  deriving DecidableEq

/-- Persisting a modified user document (`user.save()`): the stored record
with the same id is replaced. -/
def saveUser (u : User) (users : List User) : List User :=
  users.map (fun v => if v.id == u.id then u else v)

/-- The GoogleStrategy verify callback of the server file (also cited at
`favoriteController.js` lines 358-401): (1) a user carrying the googleId
of the profile gets lastLogin and avatar refreshed; (2) otherwise a user
carrying the email of the profile gets the googleId linked, avatar and
provider promoted to google; (3) otherwise a new user is created from the
profile. -/
def googleVerify (profile : GoogleProfile) (now newId : Nat)
    (users : List User) : User × List User :=
  match users.find? (fun u => u.googleId == some profile.id) with
  | some u =>
    ({ u with lastLogin := now, avatar := profile.photo },
     saveUser { u with lastLogin := now, avatar := profile.photo } users)
  | none =>
    match users.find? (fun u => u.email == profile.email) with
    | some ex =>
      ({ ex with googleId := some profile.id, avatar := profile.photo,
                 provider := "google" },
       saveUser { ex with googleId := some profile.id, avatar := profile.photo,
                          provider := "google" } users)
    | none =>
      ({ id := newId, name := profile.displayName, email := profile.email,
         password := none, googleId := some profile.id,
         avatar := profile.photo, provider := "google", role := "user",
         lastLogin := now },
       users ++ [{ id := newId, name := profile.displayName,
                   email := profile.email, password := none,
                   googleId := some profile.id, avatar := profile.photo,
                   provider := "google", role := "user", lastLogin := now }])

/-- C8: the federated login resolves identities in exactly this order:
first by subject id (refreshing lastLogin and avatar), else by email
(linking the subject id and promoting the provider tag to google), else by
creating a new user from the profile. -/
theorem googleVerify_resolution
    (profile : GoogleProfile) (now newId : Nat) (users : List User) :
    (∀ u, users.find? (fun v => v.googleId == some profile.id) = some u →
      googleVerify profile now newId users =
        ({ u with lastLogin := now, avatar := profile.photo },
         saveUser { u with lastLogin := now, avatar := profile.photo } users)) ∧
    (users.find? (fun v => v.googleId == some profile.id) = none →
      ∀ u, users.find? (fun v => v.email == profile.email) = some u →
      googleVerify profile now newId users =
        ({ u with googleId := some profile.id, avatar := profile.photo,
                  provider := "google" },
         saveUser { u with googleId := some profile.id, avatar := profile.photo,
                           provider := "google" } users)) ∧
    (users.find? (fun v => v.googleId == some profile.id) = none →
      users.find? (fun v => v.email == profile.email) = none →
      googleVerify profile now newId users =
        ({ id := newId, name := profile.displayName, email := profile.email,
           password := none, googleId := some profile.id,
           avatar := profile.photo, provider := "google", role := "user",
           lastLogin := now },
         users ++ [{ id := newId, name := profile.displayName,
                     email := profile.email, password := none,
                     googleId := some profile.id, avatar := profile.photo,
                     provider := "google", role := "user",
                     lastLogin := now }])) := by
  refine ⟨?_, ?_, ?_⟩
  · intro u hu
    rw [googleVerify, hu]
  · intro hnone u hu
    rw [googleVerify, hnone, hu]
  · intro hnone hmail
    rw [googleVerify, hnone, hmail]

/-- A Google profile matching no stored user. -/
def egProfile : GoogleProfile where
  id := "gid-77"
  displayName := "New G"
  email := "g@x.com"
  photo := some "pic"

theorem googleVerify_resolution_witness :
    (∀ u, ([egOther] : List User).find?
        (fun v => v.googleId == some egProfile.id) = some u →
      googleVerify egProfile 5 99 [egOther] =
        ({ u with lastLogin := 5, avatar := egProfile.photo },
         saveUser { u with lastLogin := 5, avatar := egProfile.photo }
           [egOther])) ∧
    (([egOther] : List User).find?
        (fun v => v.googleId == some egProfile.id) = none →
      ∀ u, ([egOther] : List User).find?
          (fun v => v.email == egProfile.email) = some u →
      googleVerify egProfile 5 99 [egOther] =
        ({ u with googleId := some egProfile.id, avatar := egProfile.photo,
                  provider := "google" },
         saveUser { u with googleId := some egProfile.id,
                           avatar := egProfile.photo, provider := "google" }
           [egOther])) ∧
    (([egOther] : List User).find?
        (fun v => v.googleId == some egProfile.id) = none →
      ([egOther] : List User).find?
        (fun v => v.email == egProfile.email) = none →
      googleVerify egProfile 5 99 [egOther] =
        ({ id := 99, name := egProfile.displayName, email := egProfile.email,
           password := none, googleId := some egProfile.id,
           avatar := egProfile.photo, provider := "google", role := "user",
           lastLogin := 5 },
         [egOther] ++ [{ id := 99, name := egProfile.displayName,
                         email := egProfile.email, password := none,
                         googleId := some egProfile.id,
                         avatar := egProfile.photo, provider := "google",
                         role := "user", lastLogin := 5 }])) :=
  googleVerify_resolution egProfile 5 99 [egOther]

end Saarthi
